import Mathlib

/-
Verification of the MAX17048 fuel-gauge driver (hackberrypi-max17048.c).

The driver turns three raw 16-bit registers (cell voltage, state of
charge, signed charge rate) into derived battery metrics.  Register
reads are modelled as values of type Except Int Nat: a negative errno
on failure, or the raw 16-bit register word on success (the regmap is
configured with val_bits = 16, so successful reads are in [0, 65535]).
Machine arithmetic is modelled on Int with explicit narrowing casts
where the C code narrows.
-/

namespace Max17048

/-- Kernel errno ENODATA (61); the driver returns -ENODATA for "no data". -/
def ENODATA : Int := 61

/-- Kernel errno EINVAL (22); returned for an unknown property selector. -/
def EINVAL : Int := 22

/-- Reinterpretation of a raw register word as a signed 16-bit value,
as performed by the cast to int16_t in max17048_get_crate. -/
def toInt16 (n : Nat) : Int :=
  if n % 65536 < 32768 then (n % 65536 : Int) else (n % 65536 : Int) - 65536

/-- Narrowing of a 64-bit signed value to a signed 32-bit int, as
performed by the cast to int on the results of div_s64. -/
def toInt32 (x : Int) : Int :=
  if x % 4294967296 < 2147483648 then x % 4294967296
  else x % 4294967296 - 4294967296

/-- Result of a raw register read issued through regmap_read: a
negative errno, or the 16-bit register value. -/
abbrev RegRead := Except Int Nat

/-- The three registers the driver reads (VCELL 0x02, SOC 0x04,
CRATE 0x16), each independently fallible. -/
structure Bus where
  vcell : RegRead
  soc : RegRead
  crate : RegRead

/-- max17048_get_vcell: on read failure the negative errno is returned;
otherwise the LSB is 78.125 uV, so the value is vcell * 625 / 8 in
unsigned (truncating) arithmetic. -/
def max17048_get_vcell (read : RegRead) : Int :=
  match read with
  | .error e => e
  | .ok vcell => ((vcell * 625 / 8 : Nat) : Int)

/-- The clamp applied by max17048_get_soc after dividing by 256: values
below 0 map to 0 (defensive, unreachable from an unsigned source) and
values above 100 map to 100. -/
def soc_clamp (soc : Int) : Int :=
  let s1 := if soc < 0 then 0 else soc
  if s1 > 100 then 100 else s1

/-- max17048_get_soc: on read failure the negative errno is returned;
otherwise the raw value is divided by 256 and clamped into [0, 100]. -/
def max17048_get_soc (read : RegRead) : Int :=
  match read with
  | .error e => e
  | .ok raw => soc_clamp ((raw : Int) / 256)

/-- max17048_get_crate: propagates the read error, otherwise
reinterprets the raw word as a signed 16-bit c-rate. -/
def max17048_get_crate (read : RegRead) : Except Int Int :=
  match read with
  | .error e => .error e
  | .ok raw => .ok (toInt16 raw)

/-- The five power-supply status values the driver can report. -/
inductive Status
  | Unknown
  | Charging
  | Discharging
  | NotCharging
  | Full
  deriving DecidableEq, Repr

/-- Numeric codes of the kernel power-supply status enum
(POWER_SUPPLY_STATUS_UNKNOWN = 0, CHARGING = 1, DISCHARGING = 2,
NOT_CHARGING = 3, FULL = 4). -/
def Status.code : Status → Int
  | .Unknown => 0
  | .Charging => 1
  | .Discharging => 2
  | .NotCharging => 3
  | .Full => 4

/-- max17048_get_status: rate read failure gives Unknown; c-rate above
4 LSB gives Charging, below -4 LSB gives Discharging; otherwise the
SOC is read and the status is Full at 95 percent or above, else
NotCharging.  Note that an SOC read failure makes max17048_get_soc
return a negative errno, which falls below 95 and yields NotCharging. -/
def max17048_get_status (crateRead socRead : RegRead) : Status :=
  match max17048_get_crate crateRead with
  | .error _ => .Unknown
  | .ok crate =>
    if crate > 4 then .Charging
    else if crate < -4 then .Discharging
    else
      let soc := max17048_get_soc socRead
      if soc ≥ 95 then .Full else .NotCharging

/-- max17048_get_current: propagates a rate read failure; otherwise
computes charge_full_design_uah * crate * 52 / 25000 with 64-bit
signed intermediate arithmetic (div_s64 truncates toward zero) and
narrows the quotient to int. -/
def max17048_get_current (crateRead : RegRead)
    (charge_full_design_uah : Nat) : Except Int Int :=
  match max17048_get_crate crateRead with
  | .error e => .error e
  | .ok crate =>
    .ok (toInt32 (Int.tdiv ((charge_full_design_uah : Int) * crate * 52) 25000))

/-- The discharge rate used by max17048_get_time_to_empty: the absolute
c-rate, raised to the minimum plausible rate 144230769 / capacity
(unsigned truncating division) when the capacity is positive and the
absolute c-rate falls below that minimum. -/
def tte_discharge_rate (crate : Int) (cap : Nat) : Int :=
  let d := |crate|
  if 0 < cap then
    let minr : Int := ((144230769 / cap : Nat) : Int)
    if d < minr then minr else d
  else d

/-- The common tail of max17048_get_time_to_empty (lines 172-180): a
non-positive discharge rate yields -ENODATA, otherwise the estimate is
225000 * soc / (discharge_rate * 13), truncating, narrowed to int. -/
def tte_tail (discharge_rate soc : Int) : Except Int Int :=
  if discharge_rate ≤ 0 then .error (-ENODATA)
  else .ok (toInt32 (Int.tdiv (225000 * soc) (discharge_rate * 13)))

/-- max17048_get_time_to_empty: propagates a rate read failure; a
c-rate of -10 or above gives -ENODATA; a failed SOC read (negative
value) is returned as is; with a positive design capacity the floored
discharge rate is used directly, and with a zero capacity a zero
discharge rate gives -ENODATA before the common tail. -/
def max17048_get_time_to_empty (crateRead socRead : RegRead)
    (cap : Nat) : Except Int Int :=
  match max17048_get_crate crateRead with
  | .error e => .error e
  | .ok crate =>
    if crate ≥ -10 then .error (-ENODATA)
    else
      let soc := max17048_get_soc socRead
      if soc < 0 then .error soc
      else
        let dr := tte_discharge_rate crate cap
        if 0 < cap then tte_tail dr soc
        else if dr = 0 then .error (-ENODATA)
        else tte_tail dr soc

/-- max17048_get_time_to_full: propagates a rate read failure; a c-rate
of 10 or below gives -ENODATA; a failed SOC read (negative value) is
returned as is; a zero c-rate gives -ENODATA (dead code after the
earlier guard); otherwise 225000 * (100 - soc) / (crate * 13),
truncating, narrowed to int. -/
def max17048_get_time_to_full (crateRead socRead : RegRead) :
    Except Int Int :=
  match max17048_get_crate crateRead with
  | .error e => .error e
  | .ok crate =>
    if crate ≤ 10 then .error (-ENODATA)
    else
      let soc := max17048_get_soc socRead
      if soc < 0 then .error soc
      else if crate = 0 then .error (-ENODATA)
      else .ok (toInt32 (Int.tdiv (225000 * (100 - soc)) (crate * 13)))

/-- Kernel technology enum value POWER_SUPPLY_TECHNOLOGY_LIPO. -/
def POWER_SUPPLY_TECHNOLOGY_LIPO : Int := 3

/-- The property selectors handled by max17048_get_property; the
Unsupported constructor stands for every selector outside the dispatch
table, which the default case rejects with -EINVAL. -/
inductive Psp
  | Status
  | VoltageNow
  | Capacity
  | ChargeNow
  | ChargeFullDesign
  | EnergyFullDesign
  | Technology
  | CurrentNow
  | TimeToEmptyNow
  | TimeToFullNow
  | Unsupported
  deriving DecidableEq, Repr

/-- max17048_get_property: the metric dispatch.  Regmap errors are
negative errnos, which the C code detects with a ret < 0 check; the
Except model carries them in the error constructor directly.  Success
stores the computed value in val->intval, modelled as the ok payload. -/
def max17048_get_property (psp : Psp) (bus : Bus)
    (cap energy : Nat) : Except Int Int :=
  match psp with
  | .Status => .ok (max17048_get_status bus.crate bus.soc).code
  | .VoltageNow =>
    let ret := max17048_get_vcell bus.vcell
    if ret < 0 then .error ret else .ok ret
  | .Capacity =>
    let ret := max17048_get_soc bus.soc
    if ret < 0 then .error ret else .ok ret
  | .ChargeNow =>
    let ret := max17048_get_soc bus.soc
    if ret < 0 then .error ret
    else .ok (toInt32 (Int.tdiv (ret * (cap : Int)) 100))
  | .ChargeFullDesign => .ok (toInt32 (cap : Int))
  | .EnergyFullDesign => .ok (toInt32 (energy : Int))
  | .Technology => .ok POWER_SUPPLY_TECHNOLOGY_LIPO
  | .CurrentNow => max17048_get_current bus.crate cap
  | .TimeToEmptyNow => max17048_get_time_to_empty bus.crate bus.soc cap
  | .TimeToFullNow => max17048_get_time_to_full bus.crate bus.soc
  | .Unsupported => .error (-EINVAL)

/-- Design-capacity resolution in max17048_probe.  uahProp is the value
of the charge-full-design-microamp-hours property when its read
succeeds (the field starts at 0 from devm_kzalloc), mahProp likewise
for the legacy battery-capacity property in mAh.  The clamp to
100000000 runs first, the legacy fallback only when the primary
property was absent, and a value still 0 defaults to 5000000. -/
def resolve_capacity (uahProp mahProp : Option Nat) : Nat :=
  let uah := uahProp.getD 0
  let uah := if uah > 100000000 then 100000000 else uah
  let uah :=
    match uahProp with
    | some _ => uah
    | none =>
      match mahProp with
      | some mah => if 0 < mah ∧ mah < 20000 then mah * 1000 else uah
      | none => uah
  if uah = 0 then 5000000 else uah

/-- Design-energy resolution in max17048_probe: when the
energy-full-design-microwatt-hours property is absent or reads 0, the
energy is cap * 37 / 10 (3.7 V nominal, unsigned truncating division);
the result is then capped at 370000000 uWh. -/
def resolve_energy (uwhProp : Option Nat) (cap : Nat) : Nat :=
  let uwh := uwhProp.getD 0
  let uwh := if uwhProp.isNone ∨ uwh = 0 then cap * 37 / 10 else uwh
  if uwh > 370000000 then 370000000 else uwh

instance : DecidableEq (Except Int Int) := fun a b =>
  match a, b with
  | .error e, .error f =>
    if h : e = f then isTrue (by rw [h])
    else isFalse (by intro hc; cases hc; exact h rfl)
  | .ok v, .ok w =>
    if h : v = w then isTrue (by rw [h])
    else isFalse (by intro hc; cases hc; exact h rfl)
  | .error _, .ok _ => isFalse (by intro hc; cases hc)
  | .ok _, .error _ => isFalse (by intro hc; cases hc)

lemma soc_clamp_nonneg (x : Int) : 0 ≤ soc_clamp x := by
  simp only [soc_clamp]
  split <;> split <;> omega

lemma soc_clamp_le (x : Int) : soc_clamp x ≤ 100 := by
  simp only [soc_clamp]
  split <;> split <;> omega

lemma soc_ok_nonneg (s : Nat) : 0 ≤ max17048_get_soc (.ok s) :=
  soc_clamp_nonneg _

lemma soc_ok_le (s : Nat) : max17048_get_soc (.ok s) ≤ 100 :=
  soc_clamp_le _

lemma toInt32_eq_self (x : Int) (h1 : -2147483648 ≤ x)
    (h2 : x < 2147483648) : toInt32 x = x := by
  simp only [toInt32]
  omega

lemma tte_discharge_rate_ge (crate : Int) (cap : Nat) :
    |crate| ≤ tte_discharge_rate crate cap := by
  simp only [tte_discharge_rate]
  split
  · split <;> omega
  · omega

lemma tte_discharge_rate_eq_max (crate : Int) (cap : Nat) (h : 0 < cap) :
    tte_discharge_rate crate cap
      = max |crate| ((144230769 / cap : Nat) : Int) := by
  simp only [tte_discharge_rate, if_pos h, max_def]
  split <;> split <;> omega

lemma tte_discharge_rate_zero_cap (crate : Int) :
    tte_discharge_rate crate 0 = |crate| := by
  simp only [tte_discharge_rate]
  norm_num

lemma tte_discharge_rate_ge_eleven (crate : Int) (cap : Nat)
    (h : crate < -10) : 11 ≤ tte_discharge_rate crate cap := by
  have habs : |crate| = -crate := abs_of_neg (by omega)
  have h2 : 11 ≤ |crate| := by omega
  exact le_trans h2 (tte_discharge_rate_ge crate cap)

lemma tte_ok_char (c s cap : Nat) (h : toInt16 c < -10) :
    max17048_get_time_to_empty (.ok c) (.ok s) cap =
      .ok (toInt32 (Int.tdiv (225000 * max17048_get_soc (.ok s))
        (tte_discharge_rate (toInt16 c) cap * 13))) := by
  have hsoc := soc_ok_nonneg s
  have hdr := tte_discharge_rate_ge_eleven (toInt16 c) cap h
  simp only [max17048_get_time_to_empty, max17048_get_crate]
  rw [if_neg (by omega)]
  rw [if_neg (by omega)]
  by_cases hcap : 0 < cap
  · rw [if_pos hcap]
    simp only [tte_tail]
    rw [if_neg (by omega)]
  · rw [if_neg hcap]
    rw [if_neg (by omega)]
    simp only [tte_tail]
    rw [if_neg (by omega)]

/-- Claim C1: status derivation is a pure function of the latest
readings: a failed c-rate read gives Unknown; otherwise a signed
c-rate above 4 gives Charging, below -4 gives Discharging, and inside
the noise band the status is Full when the SOC percent is at least 95
and NotCharging otherwise. -/
theorem status_spec :
    (∀ (e : Int) (socRead : RegRead),
      max17048_get_status (.error e) socRead = .Unknown) ∧
    ∀ c s : Nat,
      (4 < toInt16 c →
        max17048_get_status (.ok c) (.ok s) = .Charging) ∧
      (toInt16 c < -4 →
        max17048_get_status (.ok c) (.ok s) = .Discharging) ∧
      (-4 ≤ toInt16 c → toInt16 c ≤ 4 → 95 ≤ max17048_get_soc (.ok s) →
        max17048_get_status (.ok c) (.ok s) = .Full) ∧
      (-4 ≤ toInt16 c → toInt16 c ≤ 4 → max17048_get_soc (.ok s) < 95 →
        max17048_get_status (.ok c) (.ok s) = .NotCharging) := by
  constructor
  · intro e socRead
    rfl
  · intro c s
    refine ⟨?_, ?_, ?_, ?_⟩
    · intro h
      simp only [max17048_get_status, max17048_get_crate]
      rw [if_pos h]
    · intro h
      simp only [max17048_get_status, max17048_get_crate]
      rw [if_neg (by omega), if_pos h]
    · intro h1 h2 h3
      simp only [max17048_get_status, max17048_get_crate]
      rw [if_neg (by omega), if_neg (by omega), if_pos h3]
    · intro h1 h2 h3
      simp only [max17048_get_status, max17048_get_crate]
      rw [if_neg (by omega), if_neg (by omega), if_neg (by omega)]

/-- Witness for C1 on concrete readings: raw c-rate 5 charges, raw
65530 (signed -6) discharges, raw 3 with SOC raw 24576 (96 percent) is
Full, raw 0 with SOC raw 12800 (50 percent) is NotCharging, and a
failed rate read is Unknown. -/
theorem status_spec_witness :
    max17048_get_status (.ok 5) (.ok 0) = .Charging ∧
    max17048_get_status (.ok 65530) (.ok 0) = .Discharging ∧
    max17048_get_status (.ok 3) (.ok 24576) = .Full ∧
    max17048_get_status (.ok 0) (.ok 12800) = .NotCharging ∧
    max17048_get_status (.error (-5)) (.ok 0) = .Unknown := by
  have h := status_spec
  exact ⟨(h.2 5 0).1 (by decide),
    (h.2 65530 0).2.1 (by decide),
    (h.2 3 24576).2.2.1 (by decide) (by decide) (by decide),
    (h.2 0 12800).2.2.2 (by decide) (by decide) (by decide),
    h.1 (-5) (.ok 0)⟩

/-- Claim C8: for every raw SOC register value the reported state of
charge is the raw value divided by 256 (truncating) clamped into
[0, 100], hence always in [0, 100]; the defensive clamp sending any
computed value below 0 to 0 is part of the clamp. -/
theorem soc_spec : ∀ s : Nat, s ≤ 65535 →
    (max17048_get_soc (.ok s) = max 0 (min ((s : Int) / 256) 100) ∧
     0 ≤ max17048_get_soc (.ok s) ∧ max17048_get_soc (.ok s) ≤ 100) ∧
    ∀ x : Int, x < 0 → soc_clamp x = 0 := by
  intro s hs
  constructor
  · refine ⟨?_, soc_ok_nonneg s, soc_ok_le s⟩
    simp only [max17048_get_soc, soc_clamp, max_def, min_def]
    have h0 : 0 ≤ (s : Int) / 256 := by positivity
    split <;> split <;> split <;> omega
  · intro x hx
    simp only [soc_clamp]
    rw [if_pos hx]
    norm_num

/-- Witness for C8: the largest raw SOC word reports exactly 100, and
the defensive clamp maps -7 to 0. -/
theorem soc_spec_witness :
    max17048_get_soc (.ok 65535) = 100 ∧ soc_clamp (-7) = 0 := by
  have h := soc_spec 65535 (by decide)
  exact ⟨h.1.1.trans (by decide), h.2 (-7) (by decide)⟩

/-- Claim C9: for every raw voltage register value in [0, 65535] the
reported microvolt value is raw * 625 / 8 with exact truncating
integer arithmetic, is nonnegative, and is monotone non-decreasing in
the raw value. -/
theorem vcell_spec : ∀ v : Nat, v ≤ 65535 →
    (max17048_get_vcell (.ok v) = ((v * 625 / 8 : Nat) : Int) ∧
     0 ≤ max17048_get_vcell (.ok v)) ∧
    ∀ w : Nat, w ≤ 65535 → v ≤ w →
      max17048_get_vcell (.ok v) ≤ max17048_get_vcell (.ok w) := by
  intro v hv
  constructor
  · exact ⟨rfl, Int.ofNat_nonneg _⟩
  · intro w hw hvw
    show ((v * 625 / 8 : Nat) : Int) ≤ ((w * 625 / 8 : Nat) : Int)
    have h : v * 625 / 8 ≤ w * 625 / 8 := by omega
    exact_mod_cast h

/-- Witness for C9: the largest raw voltage word reports 5119921 uV
and dominates the value at raw 32768. -/
theorem vcell_spec_witness :
    max17048_get_vcell (.ok 65535) = 5119921 ∧
    max17048_get_vcell (.ok 32768) ≤ max17048_get_vcell (.ok 65535) := by
  have h1 := vcell_spec 32768 (by decide)
  have h2 := vcell_spec 65535 (by decide)
  exact ⟨h2.1.1.trans (by decide), h1.2 65535 (by decide) (by decide)⟩

/-- Claim C2: time-to-empty returns -ENODATA whenever the signed
c-rate is at least -10; it returns the SOC read error when that read
fails; otherwise it returns 225000 * soc / (discharge_rate * 13) with
truncating division, where the discharge rate is the absolute c-rate
raised to the floor 144230769 / capacity (truncating) when the
capacity is positive; with a zero capacity a zero discharge rate
returns -ENODATA (subsumed by the -10 guard, since a zero discharge
rate means a zero c-rate). -/
theorem tte_spec : ∀ c cap : Nat,
    (-10 ≤ toInt16 c → ∀ socRead : RegRead,
      max17048_get_time_to_empty (.ok c) socRead cap = .error (-ENODATA)) ∧
    (toInt16 c < -10 → ∀ e : Int, e < 0 →
      max17048_get_time_to_empty (.ok c) (.error e) cap = .error e) ∧
    (toInt16 c < -10 → ∀ s : Nat,
      max17048_get_time_to_empty (.ok c) (.ok s) cap =
        .ok (toInt32 (Int.tdiv (225000 * max17048_get_soc (.ok s))
          ((if 0 < cap then
              max |toInt16 c| ((144230769 / cap : Nat) : Int)
            else |toInt16 c|) * 13)))) ∧
    (cap = 0 → toInt16 c = 0 → ∀ socRead : RegRead,
      max17048_get_time_to_empty (.ok c) socRead cap = .error (-ENODATA)) := by
  intro c cap
  refine ⟨?_, ?_, ?_, ?_⟩
  · intro h socRead
    simp only [max17048_get_time_to_empty, max17048_get_crate]
    rw [if_pos h]
  · intro h e he
    simp only [max17048_get_time_to_empty, max17048_get_crate,
      max17048_get_soc]
    rw [if_neg (by omega), if_pos he]
  · intro h s
    rw [tte_ok_char c s cap h]
    by_cases hcap : 0 < cap
    · rw [tte_discharge_rate_eq_max (toInt16 c) cap hcap, if_pos hcap]
    · have hc0 : cap = 0 := by omega
      subst hc0
      rw [tte_discharge_rate_zero_cap]
      norm_num
  · intro hcap h0 socRead
    have h : -10 ≤ toInt16 c := by omega
    simp only [max17048_get_time_to_empty, max17048_get_crate]
    rw [if_pos h]

/-- Witness for C2: raw c-rate 65531 (signed -5) gives -ENODATA; raw
65525 (signed -11) with a failed SOC read propagates errno -5; raw
65525 with SOC raw 12800 (50 percent) and capacity 5000000 uses the
floored rate 28 and yields 30906 seconds; a zero c-rate with zero
capacity gives -ENODATA. -/
theorem tte_spec_witness :
    max17048_get_time_to_empty (.ok 65531) (.ok 12800) 5000000
      = .error (-ENODATA) ∧
    max17048_get_time_to_empty (.ok 65525) (.error (-5)) 5000000
      = .error (-5) ∧
    max17048_get_time_to_empty (.ok 65525) (.ok 12800) 5000000
      = .ok 30906 ∧
    max17048_get_time_to_empty (.ok 0) (.ok 12800) 0
      = .error (-ENODATA) := by
  have h1 := tte_spec 65531 5000000
  have h2 := tte_spec 65525 5000000
  have h3 := tte_spec 0 0
  exact ⟨h1.1 (by decide) (.ok 12800),
    h2.2.1 (by decide) (-5) (by decide),
    (h2.2.2.1 (by decide) 12800).trans (by decide),
    h3.2.2.2 rfl (by decide) (.ok 12800)⟩

/-- Claim C6: time-to-full returns -ENODATA when the signed c-rate is
at most 10 (in particular when it is 0); it returns the SOC read
error when that read fails; otherwise it returns
225000 * (100 - soc) / (c_rate * 13) with truncating division and no
minimum-rate floor on the charging path. -/
theorem ttf_spec : ∀ c : Nat,
    (toInt16 c ≤ 10 → ∀ socRead : RegRead,
      max17048_get_time_to_full (.ok c) socRead = .error (-ENODATA)) ∧
    (toInt16 c = 0 → ∀ socRead : RegRead,
      max17048_get_time_to_full (.ok c) socRead = .error (-ENODATA)) ∧
    (10 < toInt16 c → ∀ e : Int, e < 0 →
      max17048_get_time_to_full (.ok c) (.error e) = .error e) ∧
    (10 < toInt16 c → ∀ s : Nat,
      max17048_get_time_to_full (.ok c) (.ok s) =
        .ok (toInt32 (Int.tdiv (225000 * (100 - max17048_get_soc (.ok s)))
          (toInt16 c * 13)))) := by
  intro c
  refine ⟨?_, ?_, ?_, ?_⟩
  · intro h socRead
    simp only [max17048_get_time_to_full, max17048_get_crate]
    rw [if_pos h]
  · intro h socRead
    simp only [max17048_get_time_to_full, max17048_get_crate]
    rw [if_pos (by omega)]
  · intro h e he
    simp only [max17048_get_time_to_full, max17048_get_crate,
      max17048_get_soc]
    rw [if_neg (by omega), if_pos he]
  · intro h s
    have hsoc := soc_ok_nonneg s
    simp only [max17048_get_time_to_full, max17048_get_crate]
    rw [if_neg (by omega), if_neg (by omega), if_neg (by omega)]

/-- Witness for C6: a zero c-rate gives -ENODATA; raw c-rate 11 with
SOC raw 23040 (90 percent) gives the finite positive estimate 15734
seconds; raw 11 with a failed SOC read propagates errno -5. -/
theorem ttf_spec_witness :
    max17048_get_time_to_full (.ok 0) (.ok 12800) = .error (-ENODATA) ∧
    max17048_get_time_to_full (.ok 11) (.ok 23040) = .ok 15734 ∧
    (0 : Int) < 15734 ∧
    max17048_get_time_to_full (.ok 11) (.error (-5)) = .error (-5) := by
  have h0 := ttf_spec 0
  have h := ttf_spec 11
  exact ⟨h0.2.1 (by decide) (.ok 12800),
    (h.2.2.2 (by decide) 23040).trans (by decide),
    by decide,
    h.2.2.1 (by decide) (-5) (by decide)⟩

/-- Counterexample to Claim C4 as stated: with the maximum clamped
capacity 100000000 uAh and raw c-rate 32767, the exact quotient
100000000 * 32767 * 52 / 25000 is 6815536000, which does not fit in a
signed 32-bit int, so the final cast makes the driver report
-1774398592 instead of the exact quotient. -/
theorem current_claim_counterexample :
    max17048_get_current (.ok 32767) 100000000 = .ok (-1774398592) ∧
    Int.tdiv ((100000000 : Int) * 32767 * 52) 25000 = 6815536000 ∧
    (Except.ok (-1774398592) : Except Int Int) ≠ .ok 6815536000 := by
  refine ⟨by decide, by decide, by decide⟩

/-- Claim C4 amended: CurrentNow fails exactly when the c-rate read
fails; otherwise it returns capacity * c_rate * 52 / 25000 computed in
widened 64-bit arithmetic with truncating division and the quotient
narrowed to a signed 32-bit int; whenever that quotient already fits
in the signed 32-bit range the narrowing is the identity and the exact
formula value is returned. -/
theorem current_spec : ∀ (cap : Nat) (e : Int) (c : Nat),
    max17048_get_current (.error e) cap = .error e ∧
    max17048_get_current (.ok c) cap =
      .ok (toInt32 (Int.tdiv ((cap : Int) * toInt16 c * 52) 25000)) ∧
    (-2147483648 ≤ Int.tdiv ((cap : Int) * toInt16 c * 52) 25000 →
     Int.tdiv ((cap : Int) * toInt16 c * 52) 25000 < 2147483648 →
     max17048_get_current (.ok c) cap =
       .ok (Int.tdiv ((cap : Int) * toInt16 c * 52) 25000)) := by
  intro cap e c
  refine ⟨rfl, rfl, ?_⟩
  intro h1 h2
  show Except.ok (toInt32 (Int.tdiv ((cap : Int) * toInt16 c * 52) 25000)) = _
  rw [toInt32_eq_self _ h1 h2]

/-- Witness for the amended C4: capacity 5000000 uAh with raw c-rate
65531 (signed -5) reports exactly -52000 uA, and an error read
propagates. -/
theorem current_spec_witness :
    max17048_get_current (.ok 65531) 5000000 = .ok (-52000) ∧
    max17048_get_current (.error (-5)) 5000000 = .error (-5) := by
  have h := current_spec 5000000 (-5) 65531
  exact ⟨(h.2.2 (by decide) (by decide)).trans (by decide), h.1⟩

/-- Claim C5: at attach time a supplied microamp-hour capacity above
100000000 is clamped to 100000000; with no microamp-hour value, a
legacy milliamp-hour value strictly between 0 and 20000 is converted
by multiplying by 1000; a capacity still 0 after these steps defaults
to 5000000; in particular a supplied 150000000 resolves to 100000000
and a supplied 0 resolves to 5000000. -/
theorem capacity_spec :
    (∀ mp : Option Nat, resolve_capacity (some 150000000) mp = 100000000) ∧
    (∀ mp : Option Nat, resolve_capacity (some 0) mp = 5000000) ∧
    (∀ (u : Nat) (mp : Option Nat), 100000000 < u →
      resolve_capacity (some u) mp = 100000000) ∧
    (∀ mah : Nat, 0 < mah → mah < 20000 →
      resolve_capacity none (some mah) = mah * 1000) ∧
    (∀ mah : Nat, mah = 0 ∨ 20000 ≤ mah →
      resolve_capacity none (some mah) = 5000000) ∧
    resolve_capacity none none = 5000000 := by
  refine ⟨?_, ?_, ?_, ?_, ?_, rfl⟩
  · intro mp
    rfl
  · intro mp
    rfl
  · intro u mp h
    simp only [resolve_capacity, Option.getD]
    split <;> split <;> omega
  · intro mah h1 h2
    simp only [resolve_capacity, Option.getD]
    split_ifs <;> omega
  · intro mah h
    simp only [resolve_capacity, Option.getD]
    split_ifs <;> omega

/-- Witness for C5: a supplied 150000000 clamps, a supplied 0
defaults, 200000000 clamps, legacy 3000 mAh converts to 3000000 uAh,
and legacy 20000 mAh is rejected and defaults. -/
theorem capacity_spec_witness :
    resolve_capacity (some 150000000) none = 100000000 ∧
    resolve_capacity (some 0) none = 5000000 ∧
    resolve_capacity (some 200000000) none = 100000000 ∧
    resolve_capacity none (some 3000) = 3000000 ∧
    resolve_capacity none (some 20000) = 5000000 := by
  have h := capacity_spec
  exact ⟨h.1 none, h.2.1 none,
    h.2.2.1 200000000 none (by decide),
    (h.2.2.2.1 3000 (by decide) (by decide)).trans (by decide),
    h.2.2.2.2.1 20000 (Or.inr (by decide))⟩

/-- Claim C7: when the designed energy is not separately configured,
or is configured as zero, it resolves to capacity * 37 / 10 (the 3.7 V
nominal voltage, truncating integer division) capped at 370000000
uWh. -/
theorem energy_spec : ∀ cap : Nat,
    resolve_energy none cap = min (cap * 37 / 10) 370000000 ∧
    resolve_energy (some 0) cap = min (cap * 37 / 10) 370000000 := by
  intro cap
  constructor
  · simp only [resolve_energy, Option.getD, Option.isNone, min_def]
    norm_num
    split <;> split <;> omega
  · simp only [resolve_energy, Option.getD, Option.isNone, min_def]
    norm_num
    split <;> split <;> omega

/-- Counterexample to Claim C3 as stated: for the Status selector a
failed c-rate read (errno -5) is not surfaced to the caller; the query
succeeds and reports the Unknown status code 0 instead of the error
code. -/
theorem property_status_counterexample :
    max17048_get_property .Status ⟨.ok 0, .ok 0, .error (-5)⟩
      5000000 18500000 = .ok 0 ∧
    (Except.ok (0 : Int) : Except Int Int) ≠ .error (-5) := by
  refine ⟨by decide, by decide⟩

/-- Claim C3 amended: for every metric selector in the dispatch table
except Status (whose read failures are absorbed into the reported
status), a transport error (a negative errno) from any register read
the metric performs aborts the query and is returned uninterpreted;
any such error other than -ENODATA stays distinguishable from the
no-data outcome. -/
theorem property_error_propagation :
    ∀ (bus : Bus) (cap energy : Nat) (e : Int), e < 0 →
    (bus.vcell = .error e →
      max17048_get_property .VoltageNow bus cap energy = .error e) ∧
    (bus.soc = .error e →
      max17048_get_property .Capacity bus cap energy = .error e) ∧
    (bus.soc = .error e →
      max17048_get_property .ChargeNow bus cap energy = .error e) ∧
    (bus.crate = .error e →
      max17048_get_property .CurrentNow bus cap energy = .error e) ∧
    (bus.crate = .error e →
      max17048_get_property .TimeToEmptyNow bus cap energy = .error e) ∧
    (bus.crate = .error e →
      max17048_get_property .TimeToFullNow bus cap energy = .error e) ∧
    (∀ c : Nat, bus.crate = .ok c → toInt16 c < -10 → bus.soc = .error e →
      max17048_get_property .TimeToEmptyNow bus cap energy = .error e) ∧
    (∀ c : Nat, bus.crate = .ok c → 10 < toInt16 c → bus.soc = .error e →
      max17048_get_property .TimeToFullNow bus cap energy = .error e) ∧
    (e ≠ -ENODATA →
      (Except.error e : Except Int Int) ≠ .error (-ENODATA)) := by
  intro bus cap energy e he
  obtain ⟨bv, bs, bc⟩ := bus
  refine ⟨?_, ?_, ?_, ?_, ?_, ?_, ?_, ?_, ?_⟩
  · intro hv
    cases hv
    simp only [max17048_get_property, max17048_get_vcell]
    rw [if_pos he]
  · intro hs
    cases hs
    simp only [max17048_get_property, max17048_get_soc]
    rw [if_pos he]
  · intro hs
    cases hs
    simp only [max17048_get_property, max17048_get_soc]
    rw [if_pos he]
  · intro hc
    cases hc
    rfl
  · intro hc
    cases hc
    rfl
  · intro hc
    cases hc
    rfl
  · intro c hc hlt hs
    cases hc
    cases hs
    simp only [max17048_get_property, max17048_get_time_to_empty,
      max17048_get_crate, max17048_get_soc]
    rw [if_neg (by omega), if_pos he]
  · intro c hc hgt hs
    cases hc
    cases hs
    simp only [max17048_get_property, max17048_get_time_to_full,
      max17048_get_crate, max17048_get_soc]
    rw [if_neg (by omega), if_pos he]
  · intro hne hc
    cases hc
    exact hne rfl

/-- Witness for the amended C3: errno -5 propagates through
VoltageNow, Capacity, CurrentNow and through TimeToEmptyNow after a
successful rate read of raw 65520 (signed -16), and -5 differs from
-ENODATA. -/
theorem property_error_propagation_witness :
    max17048_get_property .VoltageNow ⟨.error (-5), .error (-5), .error (-5)⟩
      5000000 18500000 = .error (-5) ∧
    max17048_get_property .Capacity ⟨.error (-5), .error (-5), .error (-5)⟩
      5000000 18500000 = .error (-5) ∧
    max17048_get_property .CurrentNow ⟨.error (-5), .error (-5), .error (-5)⟩
      5000000 18500000 = .error (-5) ∧
    max17048_get_property .TimeToEmptyNow ⟨.ok 0, .error (-5), .ok 65520⟩
      5000000 18500000 = .error (-5) ∧
    (Except.error (-5 : Int) : Except Int Int) ≠ .error (-ENODATA) := by
  have h1 := property_error_propagation
    ⟨.error (-5), .error (-5), .error (-5)⟩ 5000000 18500000 (-5) (by decide)
  have h2 := property_error_propagation
    ⟨.ok 0, .error (-5), .ok 65520⟩ 5000000 18500000 (-5) (by decide)
  exact ⟨h1.1 rfl, h1.2.1 rfl, h1.2.2.2.1 rfl,
    h2.2.2.2.2.2.2.1 65520 rfl (by decide) rfl,
    h1.2.2.2.2.2.2.2.2 (by decide)⟩

/-- Claim C10: every capacity produced at attach time is strictly
positive and at most 100000000 uAh; consequently the zero-capacity
fallback inside time-to-empty is unreachable, and past the -10 guard
the discharge rate is at least 11 (or the positive floor), so the
divisor discharge_rate * 13 is strictly positive and the computation
always succeeds with the floored-rate formula. -/
theorem probe_tte_safety : ∀ (up mp : Option Nat) (c s : Nat),
    0 < resolve_capacity up mp ∧
    resolve_capacity up mp ≤ 100000000 ∧
    (toInt16 c < -10 →
      11 ≤ tte_discharge_rate (toInt16 c) (resolve_capacity up mp) ∧
      0 < tte_discharge_rate (toInt16 c) (resolve_capacity up mp) * 13 ∧
      max17048_get_time_to_empty (.ok c) (.ok s) (resolve_capacity up mp) =
        .ok (toInt32 (Int.tdiv (225000 * max17048_get_soc (.ok s))
          (tte_discharge_rate (toInt16 c) (resolve_capacity up mp) * 13)))) := by
  intro up mp c s
  have hpos : 0 < resolve_capacity up mp ∧ resolve_capacity up mp ≤ 100000000 := by
    rcases up with _ | u
    · rcases mp with _ | mah
      · exact ⟨by decide, by decide⟩
      · simp only [resolve_capacity, Option.getD]
        split_ifs <;> omega
    · simp only [resolve_capacity, Option.getD]
      split_ifs <;> omega
  refine ⟨hpos.1, hpos.2, ?_⟩
  intro h
  have hdr := tte_discharge_rate_ge_eleven (toInt16 c) (resolve_capacity up mp) h
  exact ⟨hdr, by omega, tte_ok_char c s (resolve_capacity up mp) h⟩

/-- Witness for C10: the clamped attach capacity from a supplied
150000000 uAh is positive, and time-to-empty at raw c-rate 65525
(signed -11) with SOC raw 12800 (50 percent) succeeds with 78671
seconds under that capacity. -/
theorem probe_tte_safety_witness :
    0 < resolve_capacity (some 150000000) none ∧
    max17048_get_time_to_empty (.ok 65525) (.ok 12800)
      (resolve_capacity (some 150000000) none) = .ok 78671 := by
  have h := probe_tte_safety (some 150000000) none 65525 12800
  exact ⟨h.1, (h.2.2 (by decide)).2.2.trans (by decide)⟩

end Max17048
